import Mathlib

/-!
Verification of the cyclic countdown timer of the React_Practice repository.

The repository implements the same timer three times:
* a hook component (`Timer.tsx`, function `Timer`): `useState(maxCount)`,
  `tick` = `setCountLeft((c) => c - 1)`, `reset` = `setCountLeft(maxCount)`,
  a `useEffect` that starts `setInterval(tick, 1000)` and clears it in its
  cleanup, and a second `useEffect` running after every render that performs
  `if (countLeft === 0) setCountLeft(maxCount)`;
* a class component (`Timer.tsx`, `class Timer extends Component`): field
  `initialCount = this.props.maxCount ?? 60` fixed in the constructor,
  `tick` = functional `setState` decrement, `reset` =
  `setState({ countLeft: this.initialCount })`, `componentDidMount` storing the
  `setInterval` handle in `this.timerId`, `componentDidUpdate` applying the same
  zero guard, and `componentWillUnmount` doing
  `if (this.timerId) clearInterval(this.timerId)`;
* a custom hook (`useTimer`) with the hook component's transitions and the zero
  guard in an effect with dependency array `[countLeft, maxCount]`.

Counters are embedded as `Int` (JavaScript numbers used only through `- 1`,
equality with `0` and assignment, all exact in this range). A delivered tick
firing is modelled as the decrement followed by the zero-guard effect, which
React runs after the resulting render and hence before the next firing can be
observed; likewise for reset. The browser's interval scheduler, which is not
part of the repository, is modelled as the set of registered handle ids, with
`clearInterval` removing a handle so that firings of a cleared handle are no
longer delivered.
-/

namespace ReactTimer

/-- JavaScript truthiness of the nullable interval handle, as tested by
`if (this.timerId)` in `componentWillUnmount`: `null` is falsy and a number is
truthy unless it is `0`. -/
def jsTruthy : Option Int → Bool
  | none => false
  | some v => v != 0

/-- `tick` of the hook variants: `setCountLeft((c) => c - 1)` — a functional
update computing the next value from the current one. -/
def hookTick (c : Int) : Int := c - 1

/-- `reset` of the hook variants: `setCountLeft(maxCount)` with the `maxCount`
of the current render. -/
def hookReset (maxCount : Int) (_c : Int) : Int := maxCount

/-- The zero-guard effect run after each render:
`if (countLeft === 0) setCountLeft(maxCount)`. -/
def boundaryEffect (maxCount c : Int) : Int := if c = 0 then maxCount else c

/-- One delivered tick firing together with the zero-guard effect that runs
after the resulting render: the stable counter value observable between two
firings. -/
def tickStep (maxCount c : Int) : Int := boundaryEffect maxCount (hookTick c)

/-- A `reset` call together with the zero-guard effect run after the resulting
render. -/
def resetStep (maxCount c : Int) : Int := boundaryEffect maxCount (hookReset maxCount c)

/-- Initial state of the hook variants: `useState(maxCount)` where the
destructuring default `{ maxCount = 60 }` fills in `60` when the prop is
absent. -/
def hookInit (maxCount : Option Int) : Int := maxCount.getD 60

/-- Instance state of the class variant: the constructor-captured
`initialCount`, the mutable `state.countLeft`, and the `timerId` field holding
the interval handle (`null` encoded as `none`). -/
structure ClassTimer where
  initialCount : Int
  countLeft : Int
  timerId : Option Int

/-- The class constructor: `this.initialCount = this.props.maxCount ?? 60`,
`this.state = { countLeft: this.initialCount }`, `timerId` initially `null`. -/
def classConstruct (maxCount : Option Int) : ClassTimer :=
  let initial := maxCount.getD 60
  { initialCount := initial, countLeft := initial, timerId := none }

/-- The class `tick`: functional `setState` decrementing `countLeft` from the
state passed to the updater. -/
def classTick (t : ClassTimer) : ClassTimer :=
  { t with countLeft := t.countLeft - 1 }

/-- The class `reset`: `this.setState({ countLeft: this.initialCount })` — it
reads the constructor-captured field, never the current `this.props.maxCount`. -/
def classReset (t : ClassTimer) : ClassTimer :=
  { t with countLeft := t.initialCount }

/-- `componentDidUpdate`: `if (this.state.countLeft === 0) this.reset()`. -/
def classDidUpdate (t : ClassTimer) : ClassTimer :=
  if t.countLeft = 0 then classReset t else t

/-- The browser's interval scheduler (external to the repository): the list of
currently registered repeating-timer ids and a fresh-id counter. -/
structure Scheduler where
  active : List Int
  nextId : Int

/-- `setInterval`: registers a repeating timer and returns its fresh handle. -/
def setIntervalOp (s : Scheduler) : Int × Scheduler :=
  (s.nextId, { active := s.nextId :: s.active, nextId := s.nextId + 1 })

/-- `clearInterval(v)`: deregisters the timer with id `v`; firings of a
deregistered id are no longer delivered. -/
def clearIntervalOp (v : Int) (s : Scheduler) : Scheduler :=
  { s with active := s.active.filter (fun i => i != v) }

/-- The hook effect's cleanup, `return () => clearInterval(timerId)`, applied to
the handle captured when the effect ran. -/
def hookCleanup (timerId : Int) (s : Scheduler) : Scheduler :=
  clearIntervalOp timerId s

/-- Delivery of one firing of interval `v` to the hook component. Modelled from
the spec: the host scheduler delivers a firing only while `v` is still
registered; a firing queued before `clearInterval` is discarded. When
delivered it runs `tick` and the subsequent zero-guard effect. -/
def deliverTick (maxCount v : Int) (s : Scheduler) (c : Int) : Int :=
  if v ∈ s.active then tickStep maxCount c else c

/-- `componentDidMount`: `this.timerId = setInterval(this.tick, 1000)`. -/
def componentDidMount (t : ClassTimer) (s : Scheduler) : ClassTimer × Scheduler :=
  let r := setIntervalOp s
  ({ t with timerId := some r.1 }, r.2)

/-- `componentWillUnmount`: `if (this.timerId) clearInterval(this.timerId)`.
Note that the field `timerId` is left unchanged — the code never assigns
`null` to it. -/
def componentWillUnmount (t : ClassTimer) (s : Scheduler) : ClassTimer × Scheduler :=
  if jsTruthy t.timerId then (t, clearIntervalOp (t.timerId.getD 0) s) else (t, s)

/-- Number of `clearInterval` invocations a single `componentWillUnmount` call
performs on a timer in state `t`. -/
def willUnmountClears (t : ClassTimer) : Nat :=
  if jsTruthy t.timerId then 1 else 0

/-- Counter values reachable in a hook timer configured with `maxCount`:
the initial `useState` value, and closure under a delivered tick firing and a
reset call, each followed by the zero-guard effect. -/
inductive Reachable (maxCount : Int) : Int → Prop
  | init : Reachable maxCount maxCount
  | tick {c : Int} : Reachable maxCount c → Reachable maxCount (tickStep maxCount c)
  | reset {c : Int} : Reachable maxCount c → Reachable maxCount (resetStep maxCount c)

/-- Mutations applied to the counter cell, in the order React's update queue
applies them: a tick (functional update, reading the value current at the
moment of application) or a plain set as performed by `reset`. -/
inductive TimerEvent where
  | tick : TimerEvent
  | set : Int → TimerEvent

/-- Apply one queued mutation to the current counter value. -/
def applyEvent (c : Int) : TimerEvent → Int
  | TimerEvent.tick => hookTick c
  | TimerEvent.set m => m

/-- Apply a queue of mutations in order, each reading the value left by its
predecessors. -/
def applyEvents (c : Int) (es : List TimerEvent) : Int :=
  es.foldl applyEvent c

/-- C1: for every positive cycle length, every counter value reachable through
delivered tick firings and reset calls (each completed by the zero-guard
effect that runs before the next observation) satisfies
`0 < countLeft ≤ cycleLength`; the transient `0` produced by decrementing `1`
is rewritten to `cycleLength` within the same observable step. -/
theorem tick_reset_invariant (maxCount c : Int) (hpos : 0 < maxCount)
    (h : Reachable maxCount c) : 0 < c ∧ c ≤ maxCount := by
  induction h with
  | init => exact ⟨hpos, le_refl _⟩
  | tick _ ih =>
    simp only [tickStep, boundaryEffect, hookTick]
    split <;> omega
  | reset _ _ =>
    simp only [resetStep, boundaryEffect, hookReset]
    split <;> omega

/-- Witness for C1: with cycle length `3`, the state reached by one tick from
the initial state satisfies the invariant. -/
theorem tick_reset_invariant_witness :
    (0:Int) < 3 ∧ (0 < tickStep 3 3 ∧ tickStep 3 3 ≤ 3) :=
  ⟨by decide, tick_reset_invariant 3 (tickStep 3 3) (by decide)
    (Reachable.tick Reachable.init)⟩

/-- C2 counterexample: a class timer constructed with `maxCount = 3` whose
parent has since re-rendered it with `maxCount = 5` (the cycle length now in
force) still resets to the construction-captured `initialCount = 3`, because
`classReset` reads only `initialCount` and takes no current configuration
input. -/
theorem class_reset_stale_config_cex :
    (classReset (classConstruct (some 3))).countLeft = 3 ∧
      (classReset (classConstruct (some 3))).countLeft ≠ 5 := by
  decide

/-- C2 amended: the hook variants' `reset` sets the counter to the cycle
length in force at the moment of the call (the current render's `maxCount`);
the class variant's `reset` always sets it to the value captured at
construction, even when the configuration has since changed. -/
theorem reset_config_per_variant (m c : Int) (t : ClassTimer) :
    hookReset m c = m ∧ (classReset t).countLeft = t.initialCount :=
  ⟨rfl, rfl⟩

/-- C4 counterexample: construction with `cycleLength = 0` (and `-5`) raises
nothing and produces a live instance whose counter is the invalid value — a
functioning instance does come into existence. -/
theorem construct_unchecked_cex :
    (classConstruct (some 0)).countLeft = 0 ∧ hookInit (some (-5)) = -5 := by
  decide

/-- C4 amended: construction performs no validation — every `cycleLength`,
including non-positive values, is accepted unchecked, the counter is
initialized to it, and no `InvalidConfigurationError` exists in the code. -/
theorem construct_unchecked (m : Int) :
    (classConstruct (some m)).countLeft = m ∧
      (classConstruct (some m)).initialCount = m ∧ hookInit (some m) = m :=
  ⟨rfl, rfl, rfl⟩

/-- C8: reset is idempotent — after one `reset` (with its zero-guard effect)
the counter equals the cycle length, and a second `reset` leaves it there;
likewise the class variant's counter equals `initialCount` after one and after
two resets. -/
theorem reset_idempotent (maxCount c : Int) (t : ClassTimer) :
    resetStep maxCount (resetStep maxCount c) = resetStep maxCount c ∧
      resetStep maxCount c = maxCount ∧
      (classReset (classReset t)).countLeft = (classReset t).countLeft := by
  refine ⟨?_, ?_, rfl⟩ <;> simp [resetStep, boundaryEffect, hookReset]

/-- C9: constructed with no explicit configuration, the configuration defaults
to 60 and the initial counter is 60, in both the hook variants and the class
variant. -/
theorem default_cycle_length :
    hookInit none = 60 ∧ (classConstruct none).countLeft = 60 ∧
      (classConstruct none).initialCount = 60 := by
  decide

/-- While strictly more than `k` remains, `k` delivered ticks decrement `k`
times and the zero guard never fires. -/
theorem tickStep_iterate_lt (maxCount : Int) :
    ∀ (k : Nat) (c : Int), (k : Int) < c → c ≤ maxCount →
      (tickStep maxCount)^[k] c = c - k := by
  intro k
  induction k with
  | zero => intro c _ _; simp
  | succ k ih =>
    intro c hk hle
    rw [Function.iterate_succ_apply]
    have hstep : tickStep maxCount c = c - 1 := by
      simp only [tickStep, boundaryEffect, hookTick]
      split <;> omega
    rw [hstep, ih (c - 1) (by omega) (by omega)]
    omega

/-- C3: cyclicity — for every positive cycle length `n`, applying the tick
transition (decrement plus zero-guard effect) exactly `n` times to the initial
counter `n` returns the counter to `n`. -/
theorem tick_cycle (n : Nat) (h : 0 < n) :
    (tickStep (n : Int))^[n] (n : Int) = n := by
  obtain ⟨m, rfl⟩ : ∃ m, n = m + 1 := ⟨n - 1, by omega⟩
  rw [Function.iterate_succ_apply',
    tickStep_iterate_lt _ m ((m + 1 : Nat) : Int) (by omega) (by omega)]
  simp only [tickStep, boundaryEffect, hookTick]
  split <;> omega

/-- Witness for C3: with cycle length `3`, three ticks return the counter to
`3`. -/
theorem tick_cycle_witness : 0 < 3 ∧ (tickStep (3 : Int))^[3] (3 : Int) = 3 :=
  ⟨by decide, tick_cycle 3 (by decide)⟩

/-- A queue of `n` tick updaters decrements the current value exactly `n`
times. -/
theorem applyEvents_replicate_tick :
    ∀ (n : Nat) (c : Int), applyEvents c (List.replicate n TimerEvent.tick) = c - n := by
  intro n
  induction n with
  | zero => intro c; simp [applyEvents]
  | succ n ih =>
    intro c
    rw [List.replicate_succ]
    simp only [applyEvents, List.foldl_cons] at ih ⊢
    rw [ih (applyEvent c TimerEvent.tick)]
    simp only [applyEvent, hookTick]
    omega

/-- C6: every delivered tick firing is applied as a functional update against
the counter value current at its moment of application, so after any earlier
queue of mutations (ticks or sets), `n` further delivered firings produce
exactly `n` decrements of whatever value that queue left. -/
theorem tick_current_value (c : Int) (es : List TimerEvent) (n : Nat) :
    applyEvents c (es ++ List.replicate n TimerEvent.tick) = applyEvents c es - n := by
  simp only [applyEvents, List.foldl_append]
  exact applyEvents_replicate_tick n _

/-- C7: no ghost ticks — after the cleanup `clearInterval(timerId)` returns, a
firing of that activation's handle that was still in flight is discarded by
the scheduler and does not change the counter. -/
theorem no_ghost_ticks (maxCount timerId c : Int) (s : Scheduler) :
    deliverTick maxCount timerId (hookCleanup timerId s) c = c := by
  have hmem : timerId ∉ (s.active.filter (fun i => i != timerId)) := by
    simp [List.mem_filter]
  simp only [deliverTick, hookCleanup, clearIntervalOp]
  rw [if_neg hmem]

/-- Removing a handle from the scheduler twice has the effect of removing it
once. -/
theorem clearInterval_idem (v : Int) (s : Scheduler) :
    clearIntervalOp v (clearIntervalOp v s) = clearIntervalOp v s := by
  simp only [clearIntervalOp]
  congr 1
  induction s.active with
  | nil => rfl
  | cons a l ih =>
    by_cases h : a = v
    · simp [List.filter_cons, h, ih]
    · simp [List.filter_cons, h, ih]

/-- C5 counterexample: with a bound handle `7`, `componentWillUnmount` leaves
`timerId` set — the handle is not cleared to `Unbound` — and a second call
therefore invokes `clearInterval` again, for two invocations in total rather
than one. -/
theorem deactivate_not_cleared_cex :
    ((componentWillUnmount (ClassTimer.mk 60 60 (some 7)) (Scheduler.mk [7] 8)).1.timerId
        ≠ none) ∧
      willUnmountClears (ClassTimer.mk 60 60 (some 7)) +
        willUnmountClears
          (componentWillUnmount (ClassTimer.mk 60 60 (some 7)) (Scheduler.mk [7] 8)).1 = 2 := by
  decide

/-- C5 amended: calling `componentWillUnmount` twice is safe and cancels the
underlying timer exactly once — the second call repeats `clearInterval` on the
same stale handle, which changes nothing in the scheduler and raises no error —
but the stored `timerId` field is never cleared, so the instance never returns
to the `Unbound` representation (a call with a `null` handle is a no-op). -/
theorem deactivate_idempotent_effect (t : ClassTimer) (s : Scheduler) :
    componentWillUnmount (componentWillUnmount t s).1 (componentWillUnmount t s).2
        = componentWillUnmount t s ∧
      (componentWillUnmount t s).1 = t := by
  by_cases h : jsTruthy t.timerId
  · constructor
    · simp [componentWillUnmount, h, clearInterval_idem]
    · simp [componentWillUnmount, h]
  · constructor
    · simp [componentWillUnmount, h]
    · simp [componentWillUnmount, h]

/-- `n` delivered ticks on a negative counter decrement it `n` times; the zero
guard never fires below zero. -/
theorem tickStep_iterate_neg (maxCount : Int) :
    ∀ (n : Nat) (c : Int), c < 0 → (tickStep maxCount)^[n] c = c - n := by
  intro n
  induction n with
  | zero => intro c _; simp
  | succ n ih =>
    intro c hc
    rw [Function.iterate_succ_apply]
    have hstep : tickStep maxCount c = c - 1 := by
      simp only [tickStep, boundaryEffect, hookTick]
      split <;> omega
    rw [hstep, ih (c - 1) (by omega)]
    omega

/-- C10: the zero guard fires only at exactly `0` — on a negative counter
(reachable because non-positive cycle lengths are accepted unchecked) the
guard leaves the value alone, each tick yields `countLeft - 1`, and `n` ticks
decrease the counter by `n`, without bound. -/
theorem negative_never_wraps (maxCount c : Int) (n : Nat) (h : c < 0) :
    boundaryEffect maxCount c = c ∧ tickStep maxCount c = c - 1 ∧
      (tickStep maxCount)^[n] c = c - n := by
  refine ⟨?_, ?_, tickStep_iterate_neg maxCount n c h⟩
  · simp only [boundaryEffect]
    split <;> omega
  · simp only [tickStep, boundaryEffect, hookTick]
    split <;> omega

/-- Witness for C10: starting from `-2` with cycle length `5`, the guard does
not fire, one tick gives `-3`, and four ticks give `-6`. -/
theorem negative_never_wraps_witness :
    (-2 : Int) < 0 ∧
      (boundaryEffect 5 (-2) = -2 ∧ tickStep 5 (-2) = -2 - 1 ∧
        (tickStep 5)^[4] (-2 : Int) = -2 - ((4 : Nat) : Int)) :=
  ⟨by decide, negative_never_wraps 5 (-2) 4 (by decide)⟩

end ReactTimer
